import Mathlib

/-!
Shallow embedding of `src/toil_scripts/tools/preprocessing.py`.

Each wrapper function of the Python module stages input files out of a
content-addressed file store (`job.fileStore.readGlobalFile`), invokes one
external tool in a container (`docker_call`), and stores declared output files
back (`job.fileStore.writeGlobalFile`).  The embedding records those three
observable operations as an event trace, threads an explicit `FileStore`
state through the `writeGlobalFile` calls, and returns the same values the
Python function returns (file handles; a pair where the source returns a
tuple).  File *contents* are produced by the external tools and are outside
the program; the store only tracks which handles exist.  Handles are `Nat`
allocated in order by the store, mirroring the store's "fresh opaque handle
per write" contract.  Python truthiness of optional FileStoreIDs is modelled
with `Option Nat` (`none` for a missing/falsy id) and truthiness of adapter
strings by comparison with `""`.
-/

/-- One observable operation of a wrapper: staging an input handle under a
local filename, invoking a container tool with a parameter list and a list of
declared output filenames, or storing a local file and obtaining a handle. -/
inductive FSEvent where
  | read (handle : Nat) (name : String)
  | invoke (tool : String) (params : List String) (outputs : List String)
  | write (name : String) (handle : Nat)
  deriving DecidableEq

/-- The external content-addressed file store: `next` is the next fresh
handle, `contents` maps an allocated handle to the (opaque) file it holds.
The stored string records the staged filename; the actual bytes come from the
external tool and are not modelled. -/
structure FileStore where
  next : Nat
  contents : Nat → Option String

/-- `writeGlobalFile`: store a local file, returning a fresh handle. -/
def FileStore.write (fs : FileStore) (name : String) : Nat × FileStore :=
  (fs.next, ⟨fs.next + 1, fun h => if h = fs.next then some name else fs.contents h⟩)

/-- An empty store, used to run the wrappers on concrete inputs. -/
def emptyStore : FileStore := ⟨0, fun _ => none⟩

/-- A store holding one pre-existing file at handle 0. -/
def seededStore : FileStore := ⟨1, fun h => if h = 0 then some "seed" else none⟩

/-- Failure of a wrapper call: a configuration error raised by `require`, or
a failed `readGlobalFile` on a missing (falsy) handle. -/
inductive WrapperError where
  | configError (msg : String)
  | readError
  deriving DecidableEq

/-- Modelled from the spec: `require` comes from `toil_scripts.lib`, which is
not under `src/`.  The spec says paired-end trimming without a reverse
adapter "fails immediately with a configuration error", so `require cond msg`
raises a configuration error carrying `msg` when `cond` is falsy and lets
execution continue otherwise. -/
def require (cond : Bool) (msg : String) : Except WrapperError Unit :=
  if cond then Except.ok () else Except.error (WrapperError.configError msg)

def cutadaptTool : String :=
  "quay.io/ucsc_cgl/cutadapt:1.9--6bd44edd2b8f8f17e25c5a268fedaab65fa851d2"

def samtoolsTool : String :=
  "quay.io/ucsc_cgl/samtools:0.1.19--dd5ac549b95eb3e5d166a5e310417ef13651994e"

def samtools13Tool : String :=
  "quay.io/ucsc_cgl/samtools:1.3--256539928ea162949d8a65ca5c79a72ef557ce7c"

def picardTool : String :=
  "quay.io/ucsc_cgl/picardtools:1.95--dd5ac549b95eb3e5d166a5e310417ef13651994e"

def gatkTool : String :=
  "quay.io/ucsc_cgl/gatk:3.5--dba6dae49156168a909c43330350c6161dc7ecc2"

def cutadaptRequireMsg : String :=
  "Paired end data requires a reverse 3\x27 adapter sequence."

/-- The guard at the top of `run_cutadapt`: `if r2_id: require(rev_3pr_adapter, ...)`. -/
def requireCheck (r2_id : Option Nat) (rev_3pr_adapter : String) : Except WrapperError Unit :=
  if r2_id.isSome then require (rev_3pr_adapter != "") cutadaptRequireMsg else Except.ok ()

/-- Embedding of `run_cutadapt(job, r1_id, r2_id, fwd_3pr_adapter, rev_3pr_adapter)`.
The require guard runs first; then the base parameter list is built; the
paired branch (`r1_id and r2_id` truthy) stages both reads and extends the
parameters, the other branch stages read 1 only (raising on a falsy
`r1_id`); then the tool runs and the trimmed files are written back. -/
def run_cutadapt (fs : FileStore) (r1_id r2_id : Option Nat)
    (fwd_3pr_adapter rev_3pr_adapter : String) :
    List FSEvent × Except WrapperError ((Nat × Option Nat) × FileStore) :=
  match requireCheck r2_id rev_3pr_adapter with
  | Except.error e => ([], Except.error e)
  | Except.ok _ =>
    let base := ["-a", fwd_3pr_adapter, "-m", "35"]
    match r1_id, r2_id with
    | some r1, some r2 =>
      let parameters := base ++
        ["-A", rev_3pr_adapter,
         "-o", "/data/R1_cutadapt.fastq",
         "-p", "/data/R2_cutadapt.fastq",
         "/data/R1.fastq", "/data/R2.fastq"]
      let w1 := fs.write "R1_cutadapt.fastq"
      let w2 := w1.2.write "R2_cutadapt.fastq"
      ([FSEvent.read r1 "R1.fastq", FSEvent.read r2 "R2.fastq",
        FSEvent.invoke cutadaptTool parameters [],
        FSEvent.write "R1_cutadapt.fastq" w1.1, FSEvent.write "R2_cutadapt.fastq" w2.1],
       Except.ok ((w1.1, some w2.1), w2.2))
    | some r1, none =>
      let parameters := base ++ ["-o", "/data/R1.fastq", "/data/R1.fastq"]
      let w1 := fs.write "R1_cutadapt.fastq"
      ([FSEvent.read r1 "R1.fastq",
        FSEvent.invoke cutadaptTool parameters [],
        FSEvent.write "R1_cutadapt.fastq" w1.1],
       Except.ok ((w1.1, none), w1.2))
    | none, _ =>
      ([], Except.error WrapperError.readError)

/-- Embedding of `run_samtools_faidx(job, ref_id, mock)`. -/
def run_samtools_faidx (fs : FileStore) (ref_id : Nat) (mock : Bool) :
    List FSEvent × Nat × FileStore :=
  let command := ["faidx", "ref.fasta"]
  let w := fs.write "ref.fasta.fai"
  ([FSEvent.read ref_id "ref.fasta",
    FSEvent.invoke samtoolsTool command ["ref.fasta.fai"],
    FSEvent.write "ref.fasta.fai" w.1],
   w.1, w.2)

/-- Embedding of `run_samtools_index(job, bam_id)`.  No outputs dictionary is
passed to `docker_call` here, hence the empty declared-outputs list. -/
def run_samtools_index (fs : FileStore) (bam_id : Nat) :
    List FSEvent × Nat × FileStore :=
  let parameters := ["index", "/data/sample.bam"]
  let w := fs.write "sample.bam.bai"
  ([FSEvent.read bam_id "sample.bam",
    FSEvent.invoke samtoolsTool parameters [],
    FSEvent.write "sample.bam.bai" w.1],
   w.1, w.2)

/-- The Python default value of the `flag` argument of `samtools_view`. -/
def samtools_view_default_flag : String := "0"

/-- Embedding of `samtools_view(job, bam_id, flag, mock)`.  The source reads
`multiprocessing.cpu_count()` from the executing host; that ambient value is
the explicit `cpuCount` parameter here.  `str` applied to the string `flag`
is the identity. -/
def samtools_view (cpuCount : Nat) (fs : FileStore) (bam_id : Nat)
    (flag : String) (mock : Bool) :
    List FSEvent × Nat × FileStore :=
  let command := ["view", "-b",
                  "-o", "/data/sample.output.bam",
                  "-F", flag,
                  "-@", Nat.repr cpuCount,
                  "/data/sample.bam"]
  let w := fs.write "sample.output.bam"
  ([FSEvent.read bam_id "sample.bam",
    FSEvent.invoke samtools13Tool command ["sample.output.bam"],
    FSEvent.write "sample.output.bam" w.1],
   w.1, w.2)

/-- Embedding of `run_picard_create_sequence_dictionary(job, ref_id, xmx, mock)`. -/
def run_picard_create_sequence_dictionary (fs : FileStore) (ref_id : Nat)
    (xmx : String) (mock : Bool) :
    List FSEvent × Nat × FileStore :=
  let command := ["CreateSequenceDictionary", "R=ref.fasta", "O=ref.dict"]
  let w := fs.write "ref.dict"
  ([FSEvent.read ref_id "ref.fasta",
    FSEvent.invoke picardTool command ["ref.dict"],
    FSEvent.write "ref.dict" w.1],
   w.1, w.2)

/-- Embedding of `picard_sort_sam(job, bam_id, xmx, mock)`. -/
def picard_sort_sam (fs : FileStore) (bam_id : Nat) (xmx : String) (mock : Bool) :
    List FSEvent × (Nat × Nat) × FileStore :=
  let command := ["SortSam",
                  "INPUT=sample.bam",
                  "OUTPUT=sample.sorted.bam",
                  "SORT_ORDER=coordinate",
                  "CREATE_INDEX=true"]
  let wbam := fs.write "sample.sorted.bam"
  let wbai := wbam.2.write "sample.sorted.bai"
  ([FSEvent.read bam_id "sample.bam",
    FSEvent.invoke picardTool command ["sample.sorted.bam", "sample.sorted.bai"],
    FSEvent.write "sample.sorted.bam" wbam.1, FSEvent.write "sample.sorted.bai" wbai.1],
   (wbam.1, wbai.1), wbai.2)

/-- Embedding of `picard_mark_duplicates(job, bam_id, bai_id, xmx, mock)`. -/
def picard_mark_duplicates (fs : FileStore) (bam_id bai_id : Nat)
    (xmx : String) (mock : Bool) :
    List FSEvent × (Nat × Nat) × FileStore :=
  let command := ["MarkDuplicates",
                  "INPUT=sample.sorted.bam",
                  "OUTPUT=sample.mkdups.bam",
                  "METRICS_FILE=metrics.txt",
                  "ASSUME_SORTED=true",
                  "CREATE_INDEX=true"]
  let wbam := fs.write "sample.mkdups.bam"
  let wbai := wbam.2.write "sample.mkdups.bai"
  ([FSEvent.read bam_id "sample.sorted.bam", FSEvent.read bai_id "sample.sorted.bai",
    FSEvent.invoke picardTool command ["sample.mkdups.bam", "sample.mkdups.bai"],
    FSEvent.write "sample.mkdups.bam" wbam.1, FSEvent.write "sample.mkdups.bai" wbai.1],
   (wbam.1, wbai.1), wbai.2)

/-- The extra argument pair appended by the GATK wrappers when their `unsafe`
keyword argument is set. -/
def allowSeqDictArgs : List String := ["-U", "ALLOW_SEQ_DICT_INCOMPATIBILITY"]

/-- Embedding of `run_realigner_target_creator(job, cores, bam, bai, ref,
ref_dict, fai, phase, mills, mem, unsafe, mock)`.  `uflag` models the
`unsafe` keyword argument of the source. -/
def run_realigner_target_creator (fs : FileStore) (cores : Nat)
    (bam bai ref ref_dict fai phase mills : Nat) (mem : String)
    (uflag : Bool) (mock : Bool) :
    List FSEvent × Nat × FileStore :=
  let file_ids := [ref, fai, ref_dict, bam, bai, phase, mills]
  let inputs := ["ref.fasta", "ref.fasta.fai", "ref.dict", "sample.bam",
                 "sample.bam.bai", "phase.vcf", "mills.vcf"]
  let parameters := ["-T", "RealignerTargetCreator",
                     "-nt", Nat.repr cores,
                     "-R", "/data/ref.fasta",
                     "-I", "/data/sample.bam",
                     "-known", "/data/phase.vcf",
                     "-known", "/data/mills.vcf",
                     "--downsampling_type", "NONE",
                     "-o", "/data/sample.intervals"]
  let parameters := if uflag then parameters ++ allowSeqDictArgs else parameters
  let w := fs.write "sample.intervals"
  ((file_ids.zip inputs).map (fun p => FSEvent.read p.1 p.2) ++
    [FSEvent.invoke gatkTool parameters ["sample.intervals"],
     FSEvent.write "sample.intervals" w.1],
   w.1, w.2)

/-- Embedding of `run_indel_realignment(job, intervals, bam, bai, ref,
ref_dict, fai, phase, mills, mem, unsafe, mock)`. -/
def run_indel_realignment (fs : FileStore) (intervals : Nat)
    (bam bai ref ref_dict fai phase mills : Nat) (mem : String)
    (uflag : Bool) (mock : Bool) :
    List FSEvent × (Nat × Nat) × FileStore :=
  let file_ids := [ref, fai, ref_dict, intervals, bam, bai, phase, mills]
  let inputs := ["ref.fasta", "ref.fasta.fai", "ref.dict", "sample.intervals",
                 "sample.bam", "sample.bam.bai", "phase.vcf", "mills.vcf"]
  let parameters := ["-T", "IndelRealigner",
                     "-R", "/data/ref.fasta",
                     "-I", "/data/sample.bam",
                     "-known", "/data/phase.vcf",
                     "-known", "/data/mills.vcf",
                     "-targetIntervals", "/data/sample.intervals",
                     "--downsampling_type", "NONE",
                     "-maxReads", "720000",
                     "-maxInMemory", "5400000",
                     "-o", "/data/sample.indel.bam"]
  let parameters := if uflag then parameters ++ allowSeqDictArgs else parameters
  let wbam := fs.write "sample.indel.bam"
  let wbai := wbam.2.write "sample.indel.bai"
  ((file_ids.zip inputs).map (fun p => FSEvent.read p.1 p.2) ++
    [FSEvent.invoke gatkTool parameters ["sample.indel.bam", "sample.indel.bai"],
     FSEvent.write "sample.indel.bam" wbam.1, FSEvent.write "sample.indel.bai" wbai.1],
   (wbam.1, wbai.1), wbai.2)

/-- Embedding of `run_base_recalibration(job, cores, indel_bam, indel_bai,
ref, ref_dict, fai, dbsnp, mem, unsafe, mock)`. -/
def run_base_recalibration (fs : FileStore) (cores : Nat)
    (indel_bam indel_bai ref ref_dict fai dbsnp : Nat) (mem : String)
    (uflag : Bool) (mock : Bool) :
    List FSEvent × Nat × FileStore :=
  let file_ids := [ref, fai, ref_dict, indel_bam, indel_bai, dbsnp]
  let inputs := ["ref.fasta", "ref.fasta.fai", "ref.dict", "sample.indel.bam",
                 "sample.indel.bai", "dbsnp.vcf"]
  let parameters := ["-T", "BaseRecalibrator",
                     "-nct", Nat.repr cores,
                     "-R", "/data/ref.fasta",
                     "-I", "/data/sample.indel.bam",
                     "-knownSites", "/data/dbsnp.vcf",
                     "-o", "/data/sample.recal.table"]
  let parameters := if uflag then parameters ++ allowSeqDictArgs else parameters
  let w := fs.write "sample.recal.table"
  ((file_ids.zip inputs).map (fun p => FSEvent.read p.1 p.2) ++
    [FSEvent.invoke gatkTool parameters ["sample.recal.table"],
     FSEvent.write "sample.recal.table" w.1],
   w.1, w.2)

/-- Embedding of `run_print_reads(job, cores, table, indel_bam, indel_bai,
ref, ref_dict, fai, mem, unsafe, mock)`. -/
def run_print_reads (fs : FileStore) (cores : Nat)
    (table indel_bam indel_bai ref ref_dict fai : Nat) (mem : String)
    (uflag : Bool) (mock : Bool) :
    List FSEvent × (Nat × Nat) × FileStore :=
  let file_ids := [ref, fai, ref_dict, table, indel_bam, indel_bai]
  let inputs := ["ref.fasta", "ref.fasta.fai", "ref.dict", "sample.recal.table",
                 "sample.indel.bam", "sample.indel.bai"]
  let parameters := ["-T", "PrintReads",
                     "-nct", Nat.repr cores,
                     "-R", "/data/ref.fasta",
                     "--emit_original_quals",
                     "-I", "/data/sample.indel.bam",
                     "-BQSR", "/data/sample.recal.table",
                     "-o", "/data/sample.bqsr.bam"]
  let parameters := if uflag then parameters ++ allowSeqDictArgs else parameters
  let wbam := fs.write "sample.bqsr.bam"
  let wbai := wbam.2.write "sample.bqsr.bai"
  ((file_ids.zip inputs).map (fun p => FSEvent.read p.1 p.2) ++
    [FSEvent.invoke gatkTool parameters ["sample.bqsr.bam", "sample.bqsr.bai"],
     FSEvent.write "sample.bqsr.bam" wbam.1, FSEvent.write "sample.bqsr.bai" wbai.1],
   (wbam.1, wbai.1), wbai.2)

/-!
Task-graph wiring.  `run_preprocessing` and `run_gatk_preprocessing` build no
traces of their own: they wrap the worker functions into jobs
(`job.wrapJobFn`), connect them with `addChild` edges, and return promises.
An argument of a wrapped job is either a plain handle the caller already has,
a promise for (a component of) another job's return value, or a plain
numeric, string, or boolean value.
-/

/-- An argument passed to `job.wrapJobFn`: a concrete FileStoreID handle, a
whole-return-value promise `job.rv()`, an indexed promise `job.rv(i)`, or a
plain value. -/
inductive PArg where
  | h (id : Nat)
  | rvAll (job : Nat)
  | rv (job : Nat) (i : Nat)
  | n (v : Nat)
  | s (v : String)
  | b (v : Bool)
  deriving DecidableEq

/-- A wrapped job: the name of the wrapped function and its argument list in
source order (the implicit `job` argument omitted). -/
structure JobSpec where
  fn : String
  args : List PArg
  deriving DecidableEq

/-- The task graph built by a pipeline function: the wrapped jobs (indexed by
position), the `addChild` edges in the order they are declared (`none` as
parent stands for the calling job itself), and the returned pair of
promises. -/
structure Wiring where
  jobs : List JobSpec
  edges : List (Option Nat × Nat)
  ret : PArg × PArg
  deriving DecidableEq

/-- Embedding of `run_preprocessing(job, cores, bam, bai, ref, ref_dict, fai,
phase, mills, dbsnp, mem, unsafe)`: jobs 0..3 are rtc, ir, br, pr. -/
def run_preprocessing (cores bam bai ref ref_dict fai phase mills dbsnp : Nat)
    (mem : String) (uflag : Bool) : Wiring :=
  { jobs :=
      [⟨"run_realigner_target_creator",
        [PArg.n cores, PArg.h bam, PArg.h bai, PArg.h ref, PArg.h ref_dict, PArg.h fai,
         PArg.h phase, PArg.h mills, PArg.s mem, PArg.b uflag]⟩,
       ⟨"run_indel_realignment",
        [PArg.rvAll 0, PArg.h bam, PArg.h bai, PArg.h ref, PArg.h ref_dict, PArg.h fai,
         PArg.h phase, PArg.h mills, PArg.s mem, PArg.b uflag]⟩,
       ⟨"run_base_recalibration",
        [PArg.n cores, PArg.rv 1 0, PArg.rv 1 1, PArg.h ref, PArg.h ref_dict, PArg.h fai,
         PArg.h dbsnp, PArg.s mem, PArg.b uflag]⟩,
       ⟨"run_print_reads",
        [PArg.n cores, PArg.rvAll 2, PArg.rv 1 0, PArg.rv 1 1, PArg.h ref, PArg.h ref_dict,
         PArg.h fai, PArg.s mem, PArg.b uflag]⟩],
    edges := [(none, 0), (some 0, 1), (some 1, 2), (some 2, 3)],
    ret := (PArg.rv 3 0, PArg.rv 3 1) }

/-- Embedding of `run_gatk_preprocessing(job, cores, bam, bai, ref, ref_dict,
fai, phase, mills, dbsnp, mem, unsafe, mock)`: jobs 0..6 are rm_secondary,
picard_sort, mdups, rtc, ir, br, pr. -/
def run_gatk_preprocessing (cores bam bai ref ref_dict fai phase mills dbsnp : Nat)
    (mem : String) (uflag mock : Bool) : Wiring :=
  { jobs :=
      [⟨"samtools_view", [PArg.h bam, PArg.s "0x800", PArg.b mock]⟩,
       ⟨"picard_sort_sam", [PArg.rvAll 0, PArg.s mem, PArg.b mock]⟩,
       ⟨"picard_mark_duplicates",
        [PArg.rv 1 0, PArg.rv 1 1, PArg.s mem, PArg.b mock]⟩,
       ⟨"run_realigner_target_creator",
        [PArg.n cores, PArg.rv 2 0, PArg.rv 2 1, PArg.h ref, PArg.h ref_dict, PArg.h fai,
         PArg.h phase, PArg.h mills, PArg.s mem, PArg.b uflag, PArg.b mock]⟩,
       ⟨"run_indel_realignment",
        [PArg.rvAll 3, PArg.h bam, PArg.h bai, PArg.h ref, PArg.h ref_dict, PArg.h fai,
         PArg.h phase, PArg.h mills, PArg.s mem, PArg.b uflag, PArg.b mock]⟩,
       ⟨"run_base_recalibration",
        [PArg.n cores, PArg.rv 4 0, PArg.rv 4 1, PArg.h ref, PArg.h ref_dict, PArg.h fai,
         PArg.h dbsnp, PArg.s mem, PArg.b uflag, PArg.b mock]⟩,
       ⟨"run_print_reads",
        [PArg.n cores, PArg.rvAll 5, PArg.rv 4 0, PArg.rv 4 1, PArg.h ref, PArg.h ref_dict,
         PArg.h fai, PArg.s mem, PArg.b uflag, PArg.b mock]⟩],
    edges := [(none, 0), (some 0, 1), (some 1, 2), (some 2, 3), (some 3, 4),
              (some 4, 5), (some 5, 6)],
    ret := (PArg.rv 6 0, PArg.rv 6 1) }

/-!
Trace observations used by the theorems.
-/

def isReadEv : FSEvent → Bool
  | FSEvent.read _ _ => true
  | _ => false

def isInvokeEv : FSEvent → Bool
  | FSEvent.invoke _ _ _ => true
  | _ => false

def isWriteEv : FSEvent → Bool
  | FSEvent.write _ _ => true
  | _ => false

/-- The parameter lists of the container invocations in a trace. -/
def invokeParams (t : List FSEvent) : List (List String) :=
  t.filterMap fun e =>
    match e with
    | FSEvent.invoke _ ps _ => some ps
    | _ => none

/-- The declared-output lists of the container invocations in a trace. -/
def invokeOutputs (t : List FSEvent) : List (List String) :=
  t.filterMap fun e =>
    match e with
    | FSEvent.invoke _ _ outs => some outs
    | _ => none

/-- The staged inputs of a trace, as handle/filename pairs in order. -/
def readsOf (t : List FSEvent) : List (Nat × String) :=
  t.filterMap fun e =>
    match e with
    | FSEvent.read h n => some (h, n)
    | _ => none

/-- The stored outputs of a trace, as filename/handle pairs in order. -/
def writesOf (t : List FSEvent) : List (String × Nat) :=
  t.filterMap fun e =>
    match e with
    | FSEvent.write n h => some (n, h)
    | _ => none

/-- A trace is a single blocking tool invocation: all input staging first,
then exactly one invocation, then all output storing. -/
def linearTrace (t : List FSEvent) : Prop :=
  (t.filter isInvokeEv).length = 1 ∧
  t = t.filter isReadEv ++ t.filter isInvokeEv ++ t.filter isWriteEv

/-!
Decimal representation, needed to compare command lines that embed
`str(cpu_count())`: `Nat.repr` is injective.  `chVal` inverts
`Nat.digitChar` on decimal digits and `listVal` folds a digit string back
into the number it denotes.
-/

def chVal (c : Char) : Nat := c.toNat - 48

def listVal (a : Nat) (l : List Char) : Nat :=
  l.foldl (fun acc c => acc * 10 + chVal c) a

/-!
Helper lemmas.
-/

theorem toDigitsCore_append : ∀ (f n : Nat) (ds : List Char),
    Nat.toDigitsCore 10 f n ds = Nat.toDigitsCore 10 f n [] ++ ds := by
  intro f
  induction f with
  | zero => intro n ds; simp [Nat.toDigitsCore]
  | succ f ih =>
    intro n ds
    simp only [Nat.toDigitsCore]
    by_cases h : n / 10 = 0
    · simp [h]
    · simp only [h, if_false]
      rw [ih (n / 10) (Nat.digitChar (n % 10) :: ds),
          ih (n / 10) [Nat.digitChar (n % 10)]]
      simp

theorem listVal_append (a : Nat) (xs ys : List Char) :
    listVal a (xs ++ ys) = listVal (listVal a xs) ys := by
  simp [listVal, List.foldl_append]

theorem chVal_digitChar (d : Nat) (h : d < 10) : chVal (Nat.digitChar d) = d := by
  interval_cases d <;> rfl

theorem listVal_toDigitsCore : ∀ (f n : Nat), n < f →
    listVal 0 (Nat.toDigitsCore 10 f n []) = n := by
  intro f
  induction f with
  | zero => intro n h; exact absurd h (Nat.not_lt_zero n)
  | succ f ih =>
    intro n h
    simp only [Nat.toDigitsCore]
    by_cases h0 : n / 10 = 0
    · have hn : n < 10 := by omega
      simp only [h0, if_true]
      simp [listVal, chVal_digitChar (n % 10) (by omega)]
      omega
    · simp only [h0, if_false]
      rw [toDigitsCore_append, listVal_append]
      have hlt : n / 10 < f := by
        have hd : n / 10 < n := Nat.div_lt_self (by omega) (by norm_num)
        omega
      rw [ih (n / 10) hlt]
      simp [listVal, chVal_digitChar (n % 10) (by omega)]
      omega

theorem listVal_toDigits (n : Nat) : listVal 0 (Nat.toDigits 10 n) = n := by
  simp only [Nat.toDigits]
  exact listVal_toDigitsCore (n + 1) n (Nat.lt_succ_self n)

theorem nat_repr_injective (m n : Nat) (h : Nat.repr m = Nat.repr n) : m = n := by
  have hd : Nat.toDigits 10 m = Nat.toDigits 10 n := by
    have hdata := congrArg String.data h
    simpa [Nat.repr, List.asString] using hdata
  calc m = listVal 0 (Nat.toDigits 10 m) := (listVal_toDigits m).symm
    _ = listVal 0 (Nat.toDigits 10 n) := by rw [hd]
    _ = n := listVal_toDigits n

theorem write_preserves (fs : FileStore) (name : String) (h : Nat)
    (hlt : h < fs.next) : ((fs.write name).2).contents h = fs.contents h := by
  simp only [FileStore.write]
  rw [if_neg (by omega)]

theorem write_next (fs : FileStore) (name : String) :
    ((fs.write name).2).next = fs.next + 1 := rfl

theorem run_cutadapt_single_eq (fs : FileStore) (r1 : Nat) (fwd rev : String) :
    run_cutadapt fs (some r1) none fwd rev =
      ([FSEvent.read r1 "R1.fastq",
        FSEvent.invoke cutadaptTool
          ["-a", fwd, "-m", "35", "-o", "/data/R1.fastq", "/data/R1.fastq"] [],
        FSEvent.write "R1_cutadapt.fastq" fs.next],
       Except.ok ((fs.next, none), (fs.write "R1_cutadapt.fastq").2)) := rfl

theorem run_cutadapt_paired_eq (fs : FileStore) (r1 r2 : Nat) (fwd rev : String)
    (hrev : rev ≠ "") :
    run_cutadapt fs (some r1) (some r2) fwd rev =
      ([FSEvent.read r1 "R1.fastq", FSEvent.read r2 "R2.fastq",
        FSEvent.invoke cutadaptTool
          ["-a", fwd, "-m", "35", "-A", rev, "-o", "/data/R1_cutadapt.fastq",
           "-p", "/data/R2_cutadapt.fastq", "/data/R1.fastq", "/data/R2.fastq"] [],
        FSEvent.write "R1_cutadapt.fastq" fs.next,
        FSEvent.write "R2_cutadapt.fastq" (fs.next + 1)],
       Except.ok ((fs.next, some (fs.next + 1)),
         ((fs.write "R1_cutadapt.fastq").2.write "R2_cutadapt.fastq").2)) := by
  have hb : (rev != "") = true := by simpa using hrev
  simp only [run_cutadapt, requireCheck, Option.isSome, require, hb, if_true]
  exact rfl

theorem run_cutadapt_no_r1_eq (fs : FileStore) (r2_id : Option Nat)
    (fwd rev : String) (h : requireCheck r2_id rev = Except.ok ()) :
    run_cutadapt fs none r2_id fwd rev =
      ([], Except.error WrapperError.readError) := by
  cases r2_id with
  | none => rfl
  | some r2v => simp [run_cutadapt, h]

/-!
Claims.
-/

/-- C1: `run_gatk_preprocessing` builds a single linear parent/child chain in
the documented order — the remove-secondary-alignments job (`samtools_view`
with flag `'0x800'`) is a child of the calling job, and `picard_sort_sam`,
`picard_mark_duplicates`, `run_realigner_target_creator`,
`run_indel_realignment`, `run_base_recalibration` and `run_print_reads` each
follow as the child of the immediately preceding job — and the function
returns the two promised return values of the print-reads job. -/
theorem run_gatk_preprocessing_linear_chain
    (cores bam bai ref ref_dict fai phase mills dbsnp : Nat)
    (mem : String) (uflag mock : Bool) :
    (run_gatk_preprocessing cores bam bai ref ref_dict fai phase mills dbsnp
        mem uflag mock).jobs.map JobSpec.fn =
      ["samtools_view", "picard_sort_sam", "picard_mark_duplicates",
       "run_realigner_target_creator", "run_indel_realignment",
       "run_base_recalibration", "run_print_reads"] ∧
    (run_gatk_preprocessing cores bam bai ref ref_dict fai phase mills dbsnp
        mem uflag mock).jobs.head? =
      some ⟨"samtools_view", [PArg.h bam, PArg.s "0x800", PArg.b mock]⟩ ∧
    (run_gatk_preprocessing cores bam bai ref ref_dict fai phase mills dbsnp
        mem uflag mock).edges =
      [(none, 0), (some 0, 1), (some 1, 2), (some 2, 3), (some 3, 4),
       (some 4, 5), (some 5, 6)] ∧
    (run_gatk_preprocessing cores bam bai ref ref_dict fai phase mills dbsnp
        mem uflag mock).ret = (PArg.rv 6 0, PArg.rv 6 1) :=
  ⟨rfl, rfl, rfl, rfl⟩

/-- C2: evaluation of `run_gatk_preprocessing` at a concrete input exhibiting
the divergence from the claimed data threading — the indel-realignment job
(index 4) receives the original `bam`/`bai` handles (here 100 and 101) as its
bam and bai arguments, not the promised outputs of the mark-duplicates job
(index 2); the mark-duplicates outputs feed only the target-creator job. -/
theorem run_gatk_preprocessing_ir_bypasses_mdups :
    ((run_gatk_preprocessing 4 100 101 102 103 104 105 106 107 "10G" false
        false).jobs.get? 4 =
      some ⟨"run_indel_realignment",
        [PArg.rvAll 3, PArg.h 100, PArg.h 101, PArg.h 102, PArg.h 103,
         PArg.h 104, PArg.h 105, PArg.h 106, PArg.s "10G", PArg.b false,
         PArg.b false]⟩) ∧
    ((run_gatk_preprocessing 4 100 101 102 103 104 105 106 107 "10G" false
        false).jobs.get? 3 =
      some ⟨"run_realigner_target_creator",
        [PArg.n 4, PArg.rv 2 0, PArg.rv 2 1, PArg.h 102, PArg.h 103,
         PArg.h 104, PArg.h 105, PArg.h 106, PArg.s "10G", PArg.b false,
         PArg.b false]⟩) ∧
    PArg.h 100 ≠ PArg.rv 2 0 ∧ PArg.h 101 ≠ PArg.rv 2 1 := by
  decide

/-- C3: a paired-end `run_cutadapt` call (truthy `r2_id`) with a falsy
reverse adapter fails immediately with the configuration error raised by
`require`: the trace is empty — no input is read, no tool is invoked, no
output is written — and no output handle is produced. -/
theorem run_cutadapt_paired_needs_rev_adapter
    (fs : FileStore) (r1_id : Option Nat) (r2 : Nat) (fwd : String) :
    run_cutadapt fs r1_id (some r2) fwd "" =
      ([], Except.error (WrapperError.configError cutadaptRequireMsg)) := rfl

/-- C4: in each of the four GATK wrappers, setting the `unsafe` keyword
argument (`uflag`) extends the invoked parameter list at the end with exactly
the pair `-U ALLOW_SEQ_DICT_INCOMPATIBILITY`, and leaving it unset invokes
exactly the base parameter list, for every assignment of the remaining
arguments. -/
theorem gatk_uflag_appends_exactly_one_pair :
    (∀ fs cores bam bai ref ref_dict fai phase mills mem mock,
       invokeParams (run_realigner_target_creator fs cores bam bai ref ref_dict
           fai phase mills mem true mock).1 =
         (invokeParams (run_realigner_target_creator fs cores bam bai ref
             ref_dict fai phase mills mem false mock).1).map
           (fun ps => ps ++ ["-U", "ALLOW_SEQ_DICT_INCOMPATIBILITY"])) ∧
    (∀ fs intervals bam bai ref ref_dict fai phase mills mem mock,
       invokeParams (run_indel_realignment fs intervals bam bai ref ref_dict
           fai phase mills mem true mock).1 =
         (invokeParams (run_indel_realignment fs intervals bam bai ref ref_dict
             fai phase mills mem false mock).1).map
           (fun ps => ps ++ ["-U", "ALLOW_SEQ_DICT_INCOMPATIBILITY"])) ∧
    (∀ fs cores indel_bam indel_bai ref ref_dict fai dbsnp mem mock,
       invokeParams (run_base_recalibration fs cores indel_bam indel_bai ref
           ref_dict fai dbsnp mem true mock).1 =
         (invokeParams (run_base_recalibration fs cores indel_bam indel_bai
             ref ref_dict fai dbsnp mem false mock).1).map
           (fun ps => ps ++ ["-U", "ALLOW_SEQ_DICT_INCOMPATIBILITY"])) ∧
    (∀ fs cores table indel_bam indel_bai ref ref_dict fai mem mock,
       invokeParams (run_print_reads fs cores table indel_bam indel_bai ref
           ref_dict fai mem true mock).1 =
         (invokeParams (run_print_reads fs cores table indel_bam indel_bai
             ref ref_dict fai mem false mock).1).map
           (fun ps => ps ++ ["-U", "ALLOW_SEQ_DICT_INCOMPATIBILITY"])) :=
  ⟨fun _ _ _ _ _ _ _ _ _ _ _ => rfl, fun _ _ _ _ _ _ _ _ _ _ _ => rfl,
   fun _ _ _ _ _ _ _ _ _ _ => rfl, fun _ _ _ _ _ _ _ _ _ _ => rfl⟩

/-- C5: `run_realigner_target_creator` stages exactly the seven documented
input filenames from the corresponding handle arguments in the documented
pairing, declares exactly the single output file `sample.intervals` to the
container invocation, and returns the handle obtained by storing that single
output file. -/
theorem run_realigner_target_creator_staging
    (fs : FileStore) (cores bam bai ref ref_dict fai phase mills : Nat)
    (mem : String) (uflag mock : Bool) :
    readsOf (run_realigner_target_creator fs cores bam bai ref ref_dict fai
        phase mills mem uflag mock).1 =
      [(ref, "ref.fasta"), (fai, "ref.fasta.fai"), (ref_dict, "ref.dict"),
       (bam, "sample.bam"), (bai, "sample.bam.bai"), (phase, "phase.vcf"),
       (mills, "mills.vcf")] ∧
    invokeOutputs (run_realigner_target_creator fs cores bam bai ref ref_dict
        fai phase mills mem uflag mock).1 = [["sample.intervals"]] ∧
    writesOf (run_realigner_target_creator fs cores bam bai ref ref_dict fai
        phase mills mem uflag mock).1 =
      [("sample.intervals",
        (run_realigner_target_creator fs cores bam bai ref ref_dict fai phase
            mills mem uflag mock).2.1)] := by
  cases uflag <;> exact ⟨rfl, rfl, rfl⟩

/-- C6: every wrapper performs exactly one container invocation per call, all
input staging happens before the invocation, and all output storing happens
after it (for `run_cutadapt`, on every call that returns). -/
theorem wrappers_single_blocking_invocation :
    (∀ fs r1_id r2_id fwd rev out,
       (run_cutadapt fs r1_id r2_id fwd rev).2 = Except.ok out →
       linearTrace (run_cutadapt fs r1_id r2_id fwd rev).1) ∧
    (∀ fs ref_id mock, linearTrace (run_samtools_faidx fs ref_id mock).1) ∧
    (∀ fs bam_id, linearTrace (run_samtools_index fs bam_id).1) ∧
    (∀ cpu fs bam_id flag mock,
       linearTrace (samtools_view cpu fs bam_id flag mock).1) ∧
    (∀ fs ref_id xmx mock,
       linearTrace (run_picard_create_sequence_dictionary fs ref_id xmx mock).1) ∧
    (∀ fs bam_id xmx mock, linearTrace (picard_sort_sam fs bam_id xmx mock).1) ∧
    (∀ fs bam_id bai_id xmx mock,
       linearTrace (picard_mark_duplicates fs bam_id bai_id xmx mock).1) ∧
    (∀ fs cores bam bai ref ref_dict fai phase mills mem uflag mock,
       linearTrace (run_realigner_target_creator fs cores bam bai ref ref_dict
           fai phase mills mem uflag mock).1) ∧
    (∀ fs intervals bam bai ref ref_dict fai phase mills mem uflag mock,
       linearTrace (run_indel_realignment fs intervals bam bai ref ref_dict
           fai phase mills mem uflag mock).1) ∧
    (∀ fs cores indel_bam indel_bai ref ref_dict fai dbsnp mem uflag mock,
       linearTrace (run_base_recalibration fs cores indel_bam indel_bai ref
           ref_dict fai dbsnp mem uflag mock).1) ∧
    (∀ fs cores table indel_bam indel_bai ref ref_dict fai mem uflag mock,
       linearTrace (run_print_reads fs cores table indel_bam indel_bai ref
           ref_dict fai mem uflag mock).1) := by
  refine ⟨?_, ?_, ?_, ?_, ?_, ?_, ?_, ?_, ?_, ?_, ?_⟩
  · intro fs r1_id r2_id fwd rev out h
    cases r1_id with
    | none =>
      exfalso
      cases r2_id with
      | none => simp [run_cutadapt, requireCheck] at h
      | some r2v =>
        by_cases hrev : rev = ""
        · subst hrev; simp [run_cutadapt, requireCheck, require] at h
        · have hb : (rev != "") = true := by simpa using hrev
          simp [run_cutadapt, requireCheck, require, hb] at h
    | some r1v =>
      cases r2_id with
      | none => rw [run_cutadapt_single_eq]; exact ⟨rfl, rfl⟩
      | some r2v =>
        by_cases hrev : rev = ""
        · subst hrev; simp [run_cutadapt, requireCheck, require] at h
        · rw [run_cutadapt_paired_eq fs r1v r2v fwd rev hrev]
          exact ⟨rfl, rfl⟩
  · intro fs ref_id mock; exact ⟨rfl, rfl⟩
  · intro fs bam_id; exact ⟨rfl, rfl⟩
  · intro cpu fs bam_id flag mock; exact ⟨rfl, rfl⟩
  · intro fs ref_id xmx mock; exact ⟨rfl, rfl⟩
  · intro fs bam_id xmx mock; exact ⟨rfl, rfl⟩
  · intro fs bam_id bai_id xmx mock; exact ⟨rfl, rfl⟩
  · intro fs cores bam bai ref ref_dict fai phase mills mem uflag mock
    cases uflag <;> exact ⟨rfl, rfl⟩
  · intro fs intervals bam bai ref ref_dict fai phase mills mem uflag mock
    cases uflag <;> exact ⟨rfl, rfl⟩
  · intro fs cores indel_bam indel_bai ref ref_dict fai dbsnp mem uflag mock
    cases uflag <;> exact ⟨rfl, rfl⟩
  · intro fs cores table indel_bam indel_bai ref ref_dict fai mem uflag mock
    cases uflag <;> exact ⟨rfl, rfl⟩

/-- C6 witness: a concrete returning single-end `run_cutadapt` call has a
linear read/invoke/write trace. -/
theorem wrappers_single_blocking_invocation_witness :
    linearTrace (run_cutadapt emptyStore (some 3) none "ACGT" "").1 :=
  wrappers_single_blocking_invocation.1 emptyStore (some 3) none "ACGT" ""
    ((0, none), (emptyStore.write "R1_cutadapt.fastq").2) rfl

/-- C7: no wrapper mutates or deletes an existing file-store entry: after any
wrapper call, every handle allocated before the call still maps to the same
store entry (writes only allocate fresh handles). -/
theorem wrappers_preserve_existing_handles :
    (∀ fs r1_id r2_id fwd rev out,
       (run_cutadapt fs r1_id r2_id fwd rev).2 = Except.ok out →
       ∀ h < fs.next, out.2.contents h = fs.contents h) ∧
    (∀ fs ref_id mock, ∀ h < fs.next,
       (run_samtools_faidx fs ref_id mock).2.2.contents h = fs.contents h) ∧
    (∀ fs bam_id, ∀ h < fs.next,
       (run_samtools_index fs bam_id).2.2.contents h = fs.contents h) ∧
    (∀ cpu fs bam_id flag mock, ∀ h < fs.next,
       (samtools_view cpu fs bam_id flag mock).2.2.contents h = fs.contents h) ∧
    (∀ fs ref_id xmx mock, ∀ h < fs.next,
       (run_picard_create_sequence_dictionary fs ref_id xmx mock).2.2.contents h =
         fs.contents h) ∧
    (∀ fs bam_id xmx mock, ∀ h < fs.next,
       (picard_sort_sam fs bam_id xmx mock).2.2.contents h = fs.contents h) ∧
    (∀ fs bam_id bai_id xmx mock, ∀ h < fs.next,
       (picard_mark_duplicates fs bam_id bai_id xmx mock).2.2.contents h =
         fs.contents h) ∧
    (∀ fs cores bam bai ref ref_dict fai phase mills mem uflag mock, ∀ h < fs.next,
       (run_realigner_target_creator fs cores bam bai ref ref_dict fai phase
           mills mem uflag mock).2.2.contents h = fs.contents h) ∧
    (∀ fs intervals bam bai ref ref_dict fai phase mills mem uflag mock, ∀ h < fs.next,
       (run_indel_realignment fs intervals bam bai ref ref_dict fai phase
           mills mem uflag mock).2.2.contents h = fs.contents h) ∧
    (∀ fs cores indel_bam indel_bai ref ref_dict fai dbsnp mem uflag mock, ∀ h < fs.next,
       (run_base_recalibration fs cores indel_bam indel_bai ref ref_dict fai
           dbsnp mem uflag mock).2.2.contents h = fs.contents h) ∧
    (∀ fs cores table indel_bam indel_bai ref ref_dict fai mem uflag mock, ∀ h < fs.next,
       (run_print_reads fs cores table indel_bam indel_bai ref ref_dict fai
           mem uflag mock).2.2.contents h = fs.contents h) := by
  have one : ∀ (fs : FileStore) (name : String), ∀ h < fs.next,
      ((fs.write name).2).contents h = fs.contents h := by
    intro fs name h hlt; exact write_preserves fs name h hlt
  have two : ∀ (fs : FileStore) (n1 n2 : String), ∀ h < fs.next,
      (((fs.write n1).2).write n2).2.contents h = fs.contents h := by
    intro fs n1 n2 h hlt
    rw [write_preserves ((fs.write n1).2) n2 h (by rw [write_next]; omega)]
    exact write_preserves fs n1 h hlt
  refine ⟨?_, ?_, ?_, ?_, ?_, ?_, ?_, ?_, ?_, ?_, ?_⟩
  · intro fs r1_id r2_id fwd rev out hok h hlt
    cases r1_id with
    | none =>
      exfalso
      cases r2_id with
      | none => simp [run_cutadapt, requireCheck] at hok
      | some r2v =>
        by_cases hrev : rev = ""
        · subst hrev; simp [run_cutadapt, requireCheck, require] at hok
        · have hb : (rev != "") = true := by simpa using hrev
          simp [run_cutadapt, requireCheck, require, hb] at hok
    | some r1v =>
      cases r2_id with
      | none =>
        rw [run_cutadapt_single_eq] at hok
        simp only [Except.ok.injEq] at hok
        subst hok
        exact one fs "R1_cutadapt.fastq" h hlt
      | some r2v =>
        by_cases hrev : rev = ""
        · subst hrev; simp [run_cutadapt, requireCheck, require] at hok
        · rw [run_cutadapt_paired_eq fs r1v r2v fwd rev hrev] at hok
          simp only [Except.ok.injEq] at hok
          subst hok
          exact two fs "R1_cutadapt.fastq" "R2_cutadapt.fastq" h hlt
  · intro fs ref_id mock h hlt; exact one fs "ref.fasta.fai" h hlt
  · intro fs bam_id h hlt; exact one fs "sample.bam.bai" h hlt
  · intro cpu fs bam_id flag mock h hlt; exact one fs "sample.output.bam" h hlt
  · intro fs ref_id xmx mock h hlt; exact one fs "ref.dict" h hlt
  · intro fs bam_id xmx mock h hlt
    exact two fs "sample.sorted.bam" "sample.sorted.bai" h hlt
  · intro fs bam_id bai_id xmx mock h hlt
    exact two fs "sample.mkdups.bam" "sample.mkdups.bai" h hlt
  · intro fs cores bam bai ref ref_dict fai phase mills mem uflag mock h hlt
    exact one fs "sample.intervals" h hlt
  · intro fs intervals bam bai ref ref_dict fai phase mills mem uflag mock h hlt
    exact two fs "sample.indel.bam" "sample.indel.bai" h hlt
  · intro fs cores indel_bam indel_bai ref ref_dict fai dbsnp mem uflag mock h hlt
    exact one fs "sample.recal.table" h hlt
  · intro fs cores table indel_bam indel_bai ref ref_dict fai mem uflag mock h hlt
    exact two fs "sample.bqsr.bam" "sample.bqsr.bai" h hlt

/-- C7 witness: a concrete `run_samtools_index` call on a store holding one
file leaves that pre-existing handle's entry unchanged. -/
theorem wrappers_preserve_existing_handles_witness :
    (run_samtools_index seededStore 0).2.2.contents 0 = seededStore.contents 0 :=
  wrappers_preserve_existing_handles.2.2.1 seededStore 0 0 (by decide)

/-- C8: in a single-end `run_cutadapt` call the command line directs the tool
output to `/data/R1.fastq` (the very name the input was staged under), while
the filename subsequently passed to `writeGlobalFile` is `R1_cutadapt.fastq`
— a filename that occurs nowhere in the single-end command line (the adapter
sequence being the only argument that could even coincide with it). -/
theorem run_cutadapt_single_end_filename_mismatch
    (fs : FileStore) (r1 : Nat) (fwd rev : String) :
    invokeParams (run_cutadapt fs (some r1) none fwd rev).1 =
      [["-a", fwd, "-m", "35", "-o", "/data/R1.fastq", "/data/R1.fastq"]] ∧
    writesOf (run_cutadapt fs (some r1) none fwd rev).1 =
      [("R1_cutadapt.fastq", fs.next)] ∧
    (fwd ≠ "R1_cutadapt.fastq" → fwd ≠ "/data/R1_cutadapt.fastq" →
      ∀ ps ∈ invokeParams (run_cutadapt fs (some r1) none fwd rev).1,
        "R1_cutadapt.fastq" ∉ ps ∧ "/data/R1_cutadapt.fastq" ∉ ps) := by
  refine ⟨rfl, rfl, ?_⟩
  intro h1 h2 ps hps
  have hinv : invokeParams (run_cutadapt fs (some r1) none fwd rev).1 =
      [["-a", fwd, "-m", "35", "-o", "/data/R1.fastq", "/data/R1.fastq"]] := rfl
  rw [hinv] at hps
  have hp : ps = ["-a", fwd, "-m", "35", "-o", "/data/R1.fastq", "/data/R1.fastq"] := by
    simpa using hps
  subst hp
  exact ⟨by simp [Ne.symm h1], by simp [Ne.symm h2]⟩

/-- C8 witness: at a concrete adapter sequence, the stored filename occurs
nowhere in the single-end command line. -/
theorem run_cutadapt_single_end_filename_mismatch_witness :
    "R1_cutadapt.fastq" ∉
      (["-a", "ACGT", "-m", "35", "-o", "/data/R1.fastq", "/data/R1.fastq"] :
        List String) ∧
    "/data/R1_cutadapt.fastq" ∉
      (["-a", "ACGT", "-m", "35", "-o", "/data/R1.fastq", "/data/R1.fastq"] :
        List String) :=
  (run_cutadapt_single_end_filename_mismatch emptyStore 3 "ACGT" "").2.2
    (by decide) (by decide)
    ["-a", "ACGT", "-m", "35", "-o", "/data/R1.fastq", "/data/R1.fastq"]
    (by simp [run_cutadapt_single_eq, invokeParams])

/-- C9: the `samtools_view` command is exactly the documented parameter list
with the executing host's CPU count embedded via `str`, so two runs with
identical call arguments on hosts with different CPU counts produce different
command lines (the command is not a function of the call's arguments alone),
and the default flag value yields the pair `-F 0`. -/
theorem samtools_view_command_host_dependent :
    (∀ cpu fs bam_id flag mock,
       invokeParams (samtools_view cpu fs bam_id flag mock).1 =
         [["view", "-b", "-o", "/data/sample.output.bam", "-F", flag,
           "-@", Nat.repr cpu, "/data/sample.bam"]]) ∧
    (∀ n m fs bam_id flag mock, n ≠ m →
       invokeParams (samtools_view n fs bam_id flag mock).1 ≠
         invokeParams (samtools_view m fs bam_id flag mock).1) ∧
    (∀ cpu fs bam_id mock,
       invokeParams (samtools_view cpu fs bam_id samtools_view_default_flag
           mock).1 =
         [["view", "-b", "-o", "/data/sample.output.bam", "-F", "0",
           "-@", Nat.repr cpu, "/data/sample.bam"]]) := by
  refine ⟨fun _ _ _ _ _ => rfl, ?_, fun _ _ _ _ => rfl⟩
  intro n m fs bam_id flag mock hne heq
  simp only [samtools_view, invokeParams, List.filterMap, List.cons.injEq,
    List.filterMap_nil] at heq
  exact hne (nat_repr_injective n m (by simpa using heq))

/-- C9 witness: hosts with 1 and 2 CPUs produce different `samtools_view`
command lines for the same call arguments. -/
theorem samtools_view_command_host_dependent_witness :
    invokeParams (samtools_view 1 emptyStore 0 "0" false).1 ≠
      invokeParams (samtools_view 2 emptyStore 0 "0" false).1 :=
  samtools_view_command_host_dependent.2.1 1 2 emptyStore 0 "0" false
    (by decide)

/-- C10: whenever `run_cutadapt` returns, the second component of the
returned pair is `none` exactly when the ids are not both truthy; on a
paired-end return both components are handles freshly allocated by
`writeGlobalFile` within the call (they are the handles of the two write
events of the trace, allocated at and above the store's previous high-water
mark). -/
theorem run_cutadapt_return_pair
    (fs : FileStore) (r1_id r2_id : Option Nat) (fwd rev : String)
    (out : (Nat × Option Nat) × FileStore)
    (hok : (run_cutadapt fs r1_id r2_id fwd rev).2 = Except.ok out) :
    (out.1.2 = none ↔ ¬(r1_id.isSome = true ∧ r2_id.isSome = true)) ∧
    (r1_id.isSome = true → r2_id.isSome = true →
       out.1.1 = fs.next ∧ out.1.2 = some (fs.next + 1) ∧
       FSEvent.write "R1_cutadapt.fastq" fs.next ∈
         (run_cutadapt fs r1_id r2_id fwd rev).1 ∧
       FSEvent.write "R2_cutadapt.fastq" (fs.next + 1) ∈
         (run_cutadapt fs r1_id r2_id fwd rev).1) := by
  cases r1_id with
  | none =>
    exfalso
    cases r2_id with
    | none => simp [run_cutadapt, requireCheck] at hok
    | some r2v =>
      by_cases hrev : rev = ""
      · subst hrev; simp [run_cutadapt, requireCheck, require] at hok
      · have hb : (rev != "") = true := by simpa using hrev
        simp [run_cutadapt, requireCheck, require, hb] at hok
  | some r1v =>
    cases r2_id with
    | none =>
      rw [run_cutadapt_single_eq] at hok
      simp only [Except.ok.injEq] at hok
      subst hok
      refine ⟨by simp, ?_⟩
      intro _ h2
      simp at h2
    | some r2v =>
      by_cases hrev : rev = ""
      · subst hrev; simp [run_cutadapt, requireCheck, require] at hok
      · rw [run_cutadapt_paired_eq fs r1v r2v fwd rev hrev] at hok
        simp only [Except.ok.injEq] at hok
        subst hok
        refine ⟨by simp, fun _ _ => ⟨rfl, rfl, ?_, ?_⟩⟩
        · rw [run_cutadapt_paired_eq fs r1v r2v fwd rev hrev]; simp
        · rw [run_cutadapt_paired_eq fs r1v r2v fwd rev hrev]; simp

/-- C10 witness: a concrete paired-end call returns the two freshly
allocated handles, each produced by a write event of the call's own trace. -/
theorem run_cutadapt_return_pair_witness :
    (0 : Nat) = emptyStore.next ∧
    (some 1 : Option Nat) = some (emptyStore.next + 1) ∧
    FSEvent.write "R1_cutadapt.fastq" emptyStore.next ∈
      (run_cutadapt emptyStore (some 5) (some 6) "ACGT" "TTAG").1 ∧
    FSEvent.write "R2_cutadapt.fastq" (emptyStore.next + 1) ∈
      (run_cutadapt emptyStore (some 5) (some 6) "ACGT" "TTAG").1 :=
  (run_cutadapt_return_pair emptyStore (some 5) (some 6) "ACGT" "TTAG"
    ((0, some 1),
      ((emptyStore.write "R1_cutadapt.fastq").2.write "R2_cutadapt.fastq").2)
    rfl).2 rfl rfl
